import Mathlib

/-!
Shallow embedding of `src/MeshMergerExporter.cpp` (OBJ/MTL export pipeline).

Scalar mesh attributes (positions, normals, UVs) are modelled over `ℚ`;
material/texture names over `List Char`; raw pixel buffers as `List Nat`
(one byte per entry).  External effects (file writes, image-wrapper module
availability) are Boolean oracles passed as parameters.
-/

namespace MeshMergerExporter

/-- One character-replacement pass, `FString::Replace` with a single-character
search string (lines 167-176 each replace one character by `_`). -/
def replaceChar (target repl : Char) (s : List Char) : List Char :=
  s.map fun c => if c = target then repl else c

/-- `AMeshMergerExporter::SanitizeFileName` (lines 164-178): ten sequential
single-character replacements, in source order. -/
def SanitizeFileName (fileName : List Char) : List Char :=
  replaceChar '|' '_'
    (replaceChar '>' '_'
      (replaceChar '<' '_'
        (replaceChar '"' '_'
          (replaceChar '?' '_'
            (replaceChar '*' '_'
              (replaceChar ':' '_'
                (replaceChar '\\' '_'
                  (replaceChar '/' '_'
                    (replaceChar ' ' '_' fileName)))))))))

/-- The ten reserved characters replaced by `SanitizeFileName`. -/
def reservedChars : List Char :=
  [' ', '/', '\\', ':', '*', '?', '"', '<', '>', '|']

/-! ### Mesh data model (FMeshDescription as used by ExportToOBJ)

Element IDs are list positions: the exporter iterates `GetElementIDs()` in
order and a compact mesh description numbers its elements densely from 0. -/

/-- `FVector3f`, with rational components. -/
structure Vec3 where
  x : ℚ
  y : ℚ
  z : ℚ
deriving DecidableEq, Inhabited

/-- `FVector2f` (a UV), with rational components. -/
structure Vec2 where
  u : ℚ
  v : ℚ
deriving DecidableEq, Inhabited

/-- One vertex instance: its vertex (`GetVertexInstanceVertex`), its normal
and its channel-0 UV (lines 622-624). -/
structure VertexInstance where
  vertexID : Nat
  normal : Vec3
  uv : Vec2
deriving DecidableEq, Inhabited

/-- One triangle: the three vertex-instance IDs returned by
`GetTriangleVertexInstances` (line 699). -/
structure Tri where
  i0 : Nat
  i1 : Nat
  i2 : Nat
deriving DecidableEq, Inhabited

/-- One polygon: its polygon group (= material slot index, line 686-689) and
its triangles (line 695). -/
structure Polygon where
  groupIdx : Nat
  triangles : List Tri
deriving DecidableEq, Inhabited

/-- The mesh description tables the exporter walks. -/
structure MeshDescriptionModel where
  vertices : List Vec3
  vertexInstances : List VertexInstance
  polygons : List Polygon
deriving DecidableEq, Inhabited

/-- Well-formedness invariant stated by the data model: every triangle corner
references an existing vertex instance, and every vertex instance references
an existing vertex. -/
def MeshWF (m : MeshDescriptionModel) : Prop :=
  (∀ p ∈ m.polygons, ∀ t ∈ p.triangles,
      t.i0 < m.vertexInstances.length ∧ t.i1 < m.vertexInstances.length ∧
      t.i2 < m.vertexInstances.length) ∧
  (∀ vi ∈ m.vertexInstances, vi.vertexID < m.vertices.length)

instance (m : MeshDescriptionModel) : Decidable (MeshWF m) := by
  unfold MeshWF; infer_instance

/-! ### Geometry text stream (one constructor per OBJ record kind) -/

/-- A corner of an emitted face record: the three slash-separated indices
(line 712). -/
structure FaceCorner where
  vertexIndex : Nat
  uvIndex : Nat
  normalIndex : Nat
deriving DecidableEq, Inhabited

/-- One line of the emitted OBJ stream. -/
inductive ObjLine where
  | comment (text : List Char)
  | mtllib (name : List Char)
  | v (x y z : ℚ)
  | vt (u v : ℚ)
  | vn (x y z : ℚ)
  | usemtl (name : List Char)
  | face (c0 c1 c2 : FaceCorner)
  | blank
deriving DecidableEq, Inhabited

def isVtLine : ObjLine → Bool
  | ObjLine.vt _ _ => true
  | _ => false

def isVnLine : ObjLine → Bool
  | ObjLine.vn _ _ _ => true
  | _ => false

def isUsemtlLine : ObjLine → Bool
  | ObjLine.usemtl _ => true
  | _ => false

def isFaceLine : ObjLine → Bool
  | ObjLine.face _ _ _ => true
  | _ => false

/-- The corners of a line, when it is a face record. -/
def faceCorners : ObjLine → List FaceCorner
  | ObjLine.face a b c => [a, b, c]
  | _ => []

/-- The fixed UE-to-OBJ axis swap `(x, y, z) → (x, z, y)` used by the `v` and
`vn` emission loops (lines 638, 656). -/
def remapAxes (p : Vec3) : Vec3 :=
  { x := p.x, y := p.z, z := p.y }

/-- The V flip `v → 1 - v` used by the `vt` emission loop (line 646). -/
def flipV (v : ℚ) : ℚ := 1 - v

/-- Vertex position loop (lines 634-639): one `v` record per vertex, with the
printf arguments `Pos.X, Pos.Z, Pos.Y`. -/
def vertexLines (m : MeshDescriptionModel) : List ObjLine :=
  m.vertices.map fun p => ObjLine.v p.x p.z p.y

/-- The `vt` loop (lines 643-648): emit one `vt` record per vertex instance,
pairing it with the value `CurrentIndex` assigned to that instance in
`VertexInstanceToIndex` (the counter starts at 1 and is bumped once per
instance). -/
def vtPass : List VertexInstance → Nat → List (ObjLine × Nat)
  | [], _ => []
  | vi :: rest, cur =>
      (ObjLine.vt vi.uv.u (1 - vi.uv.v), cur) :: vtPass rest (cur + 1)

def vtLines (m : MeshDescriptionModel) : List ObjLine :=
  (vtPass m.vertexInstances 1).map Prod.fst

/-- The contents of `VertexInstanceToIndex`, keyed by instance ID. -/
def instanceIndexList (m : MeshDescriptionModel) : List Nat :=
  (vtPass m.vertexInstances 1).map Prod.snd

/-- `VertexInstanceToIndex[InstanceID]` (line 710). -/
def lookupInstanceIndex (m : MeshDescriptionModel) (instID : Nat) : Nat :=
  (instanceIndexList m).getD instID 0

/-- The `vn` loop (lines 652-657): one `vn` record per vertex instance, with
printf arguments `Normal.X, Normal.Z, Normal.Y`. -/
def vnLines (m : MeshDescriptionModel) : List ObjLine :=
  m.vertexInstances.map fun vi => ObjLine.vn vi.normal.x vi.normal.z vi.normal.y

/-- One corner of a face record (lines 706-712): `VertexIndex` is
`VertexID.GetValue() + 1`, and the single `UVNormalIndex` is printed for both
the UV and the normal slot. -/
def cornerRecord (m : MeshDescriptionModel) (instID : Nat) : FaceCorner :=
  { vertexIndex := (m.vertexInstances.getD instID default).vertexID + 1
    uvIndex := lookupInstanceIndex m instID
    normalIndex := lookupInstanceIndex m instID }

/-- One face record for a triangle (lines 701-714). -/
def faceLineOf (m : MeshDescriptionModel) (t : Tri) : ObjLine :=
  ObjLine.face (cornerRecord m t.i0) (cornerRecord m t.i1) (cornerRecord m t.i2)

/-- The face lines of one material slot (lines 683-718): every polygon whose
polygon group equals the slot index, each of its triangles in order. -/
def slotFaceLines (m : MeshDescriptionModel) (matIndex : Nat) : List ObjLine :=
  ((m.polygons.filter fun p => p.groupIdx == matIndex).map
    fun p => p.triangles.map (faceLineOf m)).flatten

/-! ### Texture pixel pipeline (ExportMaterials, lines 261-546) -/

/-- `ETextureSourceFormat` as the switch at lines 305-360 distinguishes it:
`TSF_BGRA8`, `TSF_G8`, and everything else (`RGBA8` is one of the formats
that falls into the `default` case). -/
inductive ETextureSourceFormat where
  | BGRA8
  | G8
  | RGBA8
  | unknownFormat
deriving DecidableEq

/-- `FColor` (one canonical pixel), one `Nat` per 8-bit channel. -/
structure FColor where
  r : Nat
  g : Nat
  b : Nat
  a : Nat
deriving DecidableEq, Inhabited

/-- `FColor()` as produced by `ColorData.SetNum` (line 300): zeroed. -/
def zeroColor : FColor := { r := 0, g := 0, b := 0, a := 0 }

/-- The 4-byte read `FColor(RawData[i*4+2], RawData[i*4+1], RawData[i*4+0],
RawData[i*4+3])` shared by the `TSF_BGRA8` case (lines 315-320) and the
`default` case (lines 349-354). -/
def bgra8PixelAt (rawData : List Nat) (pixelIndex : Nat) : FColor :=
  { r := rawData.getD (pixelIndex * 4 + 2) 0
    g := rawData.getD (pixelIndex * 4 + 1) 0
    b := rawData.getD (pixelIndex * 4) 0
    a := rawData.getD (pixelIndex * 4 + 3) 0 }

/-- The grayscale broadcast `FColor(Gray, Gray, Gray, 255)` of the `TSF_G8`
case (lines 333-334). -/
def grayPixelAt (rawData : List Nat) (pixelIndex : Nat) : FColor :=
  { r := rawData.getD pixelIndex 0
    g := rawData.getD pixelIndex 0
    b := rawData.getD pixelIndex 0
    a := 255 }

/-- The per-format pixel conversion switch (lines 299-360): `ColorData` is
pre-sized to `Width * Height` zeroed pixels; `TSF_BGRA8` reads each 4-byte
group under the guard `ByteIndex + 3 < RawData.Num()`, `TSF_G8` reads one
byte under the guard `PixelIndex < RawData.Num()`, and the `default` case
reinterprets the buffer as BGRA only when `RawData.Num() >= Width*Height*4`,
failing otherwise (`bConversionSuccess` stays false, modelled as `none`). -/
def convertSourcePixels (format : ETextureSourceFormat) (width height : Nat)
    (rawData : List Nat) : Option (List FColor) :=
  match format with
  | ETextureSourceFormat.BGRA8 =>
      some ((List.range (width * height)).map fun pixelIndex =>
        if pixelIndex * 4 + 3 < rawData.length then bgra8PixelAt rawData pixelIndex
        else zeroColor)
  | ETextureSourceFormat.G8 =>
      some ((List.range (width * height)).map fun pixelIndex =>
        if pixelIndex < rawData.length then grayPixelAt rawData pixelIndex
        else zeroColor)
  | _ =>
      if width * height * 4 ≤ rawData.length then
        some ((List.range (width * height)).map fun pixelIndex =>
          bgra8PixelAt rawData pixelIndex)
      else none

/-- The number of source bytes per pixel that the switch reads for a format
it recognizes. -/
def expectedChannels : ETextureSourceFormat → Nat
  | ETextureSourceFormat.G8 => 1
  | _ => 4

/-- The pixel the switch builds for a recognized format when its source bytes
are present. -/
def recognizedPixelAt (format : ETextureSourceFormat) (rawData : List Nat)
    (pixelIndex : Nat) : FColor :=
  match format with
  | ETextureSourceFormat.G8 => grayPixelAt rawData pixelIndex
  | _ => bgra8PixelAt rawData pixelIndex

/-- The memory bytes of one `FColor` (little-endian `B, G, R, A` layout, the
layout `SetRaw(..., ERGBFormat::BGRA, 8)` consumes). -/
def colorBytes (c : FColor) : List Nat := [c.b, c.g, c.r, c.a]

/-- The flattened memory bytes of a canonical pixel buffer. -/
def bufferBytes (cs : List FColor) : List Nat := (cs.map colorBytes).flatten

/-! ### Image container encoder chain (lines 362-421 and 478-529) -/

/-- The candidate container formats, in the order the exporter tries them. -/
inductive ImageExt where
  | tga
  | bmp
deriving DecidableEq

def extChars : ImageExt → List Char
  | ImageExt.tga => (".tga").toList
  | ImageExt.bmp => (".bmp").toList

/-- The outcome of one candidate format's attempt: `CreateImageWrapper`
validity, `SetRaw` acceptance, `GetCompressed(100).Num() > 0`, and
`SaveArrayToFile` success. -/
structure TextureEncodeOutcome where
  wrapperValid : Bool
  setRawOk : Bool
  compressedNonEmpty : Bool
  saveOk : Bool
deriving DecidableEq

/-- A candidate succeeds when every step of its nested-if ladder succeeds
(lines 368-385 for TGA, 401-416 for BMP). -/
def formatSucceeds (o : TextureEncodeOutcome) : Bool :=
  o.wrapperValid && o.setRawOk && o.compressedNonEmpty && o.saveOk

/-- One step of the `bTextureExported` flag ladder: a candidate only runs
while the flag is still unset (`if (!bTextureExported)` at line 395/506). -/
def tryFormat (o : TextureEncodeOutcome) (ext : ImageExt) :
    Option ImageExt → Option ImageExt
  | some e => some e
  | none => if formatSucceeds o then some ext else none

/-- The whole chain: TGA first, then BMP. -/
def encodeChain (tgaOutcome bmpOutcome : TextureEncodeOutcome) : Option ImageExt :=
  tryFormat bmpOutcome ImageExt.bmp (tryFormat tgaOutcome ImageExt.tga none)

/-! ### Material records (MTL stream) -/

/-- One line of the emitted MTL stream. -/
inductive MtlLine where
  | newmtl (name : List Char)
  | ka (r g b : ℚ)
  | kd (r g b : ℚ)
  | ks (r g b : ℚ)
  | ns (shininess : ℚ)
  | d (opacity : ℚ)
  | illum (model : Nat)
  | mapKd (path : List Char)
  | blank
deriving DecidableEq

def isMapKdLine : MtlLine → Bool
  | MtlLine.mapKd _ => true
  | _ => false

/-- The relative texture path written into `map_Kd` (lines 383, 414, 498,
523): `Textures/<sanitized name><ext>`. -/
def texRelPath (texName : List Char) (ext : ImageExt) : List Char :=
  ("Textures/").toList ++ SanitizeFileName texName ++ extChars ext

/-- The `map_Kd` lines one chain attempt contributes: one line when a
candidate succeeded, none otherwise. -/
def mapLinesOf (texName : List Char) : Option ImageExt → List MtlLine
  | some ext => [MtlLine.mapKd (texRelPath texName ext)]
  | none => []

/-- The per-texture environment of `ExportMaterials` (lines 261-546): the
texture's name, whether `Texture2D->Source` is valid, whether
`GetMipData` returned bytes, whether the pixel conversion succeeded with a
positive pixel count, the two candidates' outcomes on the primary buffer,
whether the platform-data fallback is usable (mips present, lock succeeded,
`DataSize >= Width*Height*4`), and the two candidates' outcomes there. -/
structure TextureExportEnv where
  texName : List Char
  sourceValid : Bool
  mipDataNonEmpty : Bool
  conversionOk : Bool
  pixelCountPos : Bool
  tgaOutcome : TextureEncodeOutcome
  bmpOutcome : TextureEncodeOutcome
  platformDataOk : Bool
  altTgaOutcome : TextureEncodeOutcome
  altBmpOutcome : TextureEncodeOutcome
deriving DecidableEq

/-- All `map_Kd` lines one texture contributes to the MTL stream: the primary
path (lines 284-432) runs the chain when the source is valid, has mip data
and converts; the alternative platform-data path (lines 440-546) runs only
when the primary buffer was unavailable (`bUseAlternativeMethod`) and nothing
was exported yet. -/
def textureMapLines (t : TextureExportEnv) : List MtlLine :=
  if t.sourceValid && t.mipDataNonEmpty then
    if t.conversionOk && t.pixelCountPos then
      mapLinesOf t.texName (encodeChain t.tgaOutcome t.bmpOutcome)
    else []
  else if t.platformDataOk then
    mapLinesOf t.texName (encodeChain t.altTgaOutcome t.altBmpOutcome)
  else []

/-- One material slot's data when its `MaterialInterface` is non-null: the
material's raw name and its resolved base-color texture, if any (`none` when
no parameter name probed at lines 224-257 resolves a texture, or when it is
not a `UTexture2D`). -/
structure MaterialData where
  name : List Char
  texture : Option TextureExportEnv
deriving DecidableEq

/-- One slot's MTL block (lines 201-563): nothing for a null slot
(`continue` at line 207); otherwise `newmtl` with the sanitized name, the
fixed coefficient lines, the texture's `map_Kd` lines (if any), and the
closing blank line (line 563). -/
def mtlBlock : Option MaterialData → List MtlLine
  | none => []
  | some mat =>
      [MtlLine.newmtl (SanitizeFileName mat.name),
       MtlLine.ka 1 1 1, MtlLine.kd 1 1 1, MtlLine.ks 0 0 0,
       MtlLine.ns 10, MtlLine.d 1, MtlLine.illum 2]
      ++ (match mat.texture with
          | none => []
          | some t => textureMapLines t)
      ++ [MtlLine.blank]

/-- The result of one `ExportMaterials` run (the mesh-non-null path): the MTL
file name built at line 567, the accumulated `MTLContent`, the fact that
`SaveStringToFile` is attempted unconditionally at line 570, and its
outcome. -/
structure MaterialExportResult where
  mtlFileName : List Char
  content : List MtlLine
  writeAttempted : Bool
  writeSucceeded : Bool
deriving DecidableEq

/-- `AMeshMergerExporter::ExportMaterials` (lines 180-588) with a non-null
mesh: loop over the slots accumulating blocks, then write
`<objBaseName>.mtl` once, unconditionally. -/
def ExportMaterials (slots : List (Option MaterialData)) (objBaseName : List Char)
    (mtlSaveOk : Bool) : MaterialExportResult :=
  { mtlFileName := objBaseName ++ (".mtl").toList
    content := (slots.map mtlBlock).flatten
    writeAttempted := true
    writeSucceeded := mtlSaveOk }

/-! ### Geometry stream assembly and orchestrator (ExportToOBJ) -/

/-- One material slot's chunk of the face section (lines 668-721): a null
slot is skipped entirely (`continue` at line 673); a non-null slot emits the
`# Material:` comment, the `usemtl` line, and its face lines. -/
def slotChunk (m : MeshDescriptionModel) (matIndex : Nat) :
    Option MaterialData → List ObjLine
  | none => []
  | some mat =>
      ObjLine.comment (SanitizeFileName mat.name)
        :: ObjLine.usemtl (SanitizeFileName mat.name)
        :: slotFaceLines m matIndex

/-- The face section: slots in index order (line 668). -/
def faceSection (m : MeshDescriptionModel) (mats : List (Option MaterialData)) :
    List ObjLine :=
  ((List.range mats.length).map fun i => slotChunk m i (mats.getD i none)).flatten

/-- `encodeGeometry`: the whole OBJ stream of `ExportToOBJ` (lines 605-721):
header comments and `mtllib`, the `v` section, the `vt` section, the `vn`
section, and the per-material face section, with the blank separator lines. -/
def encodeGeometry (m : MeshDescriptionModel) (mats : List (Option MaterialData))
    (meshName mtlFileName : List Char) : List ObjLine :=
  [ObjLine.comment (("Exported from Unreal Engine 5").toList),
   ObjLine.comment meshName,
   ObjLine.mtllib mtlFileName, ObjLine.blank]
  ++ vertexLines m ++ [ObjLine.blank]
  ++ vtLines m ++ [ObjLine.blank]
  ++ vnLines m ++ [ObjLine.blank]
  ++ faceSection m mats

/-- The orchestrator's external conditions: the null-mesh check (line 592),
the render-data check (line 599), the mesh-description check (line 615), and
the OBJ `SaveStringToFile` outcome (line 724). -/
structure ExportEnv where
  meshPresent : Bool
  hasRenderData : Bool
  hasMeshDescription : Bool
  objSaveOk : Bool
deriving DecidableEq

/-- The geometry file write succeeds exactly when every precondition holds
and the save call succeeds. -/
def geometryWriteSucceeded (env : ExportEnv) : Bool :=
  env.meshPresent && env.hasRenderData && env.hasMeshDescription && env.objSaveOk

/-- What one `ExportToOBJ` call produced: its Boolean return value, whether
the geometry file was written (and stays written), and the material-export
run when it happened. -/
structure ExportOutcome where
  success : Bool
  objFileWritten : Bool
  materials : Option MaterialExportResult
deriving DecidableEq

/-- `AMeshMergerExporter::ExportToOBJ` (lines 590-741), control flow only:
fail fast on the three precondition checks; otherwise write the OBJ and, only
on a successful write (line 726), run `ExportMaterials`; return the OBJ
write's outcome (line 740). -/
def ExportToOBJ (env : ExportEnv) (slots : List (Option MaterialData))
    (objBaseName : List Char) (mtlSaveOk : Bool) : ExportOutcome :=
  if env.meshPresent then
    if env.hasRenderData then
      if env.hasMeshDescription then
        if env.objSaveOk then
          { success := true, objFileWritten := true
            materials := some (ExportMaterials slots objBaseName mtlSaveOk) }
        else { success := false, objFileWritten := false, materials := none }
      else { success := false, objFileWritten := false, materials := none }
    else { success := false, objFileWritten := false, materials := none }
  else { success := false, objFileWritten := false, materials := none }

/-! ### Concrete inputs used to evaluate the development -/

/-- A single-triangle mesh: three vertices, three vertex instances, one
polygon in polygon group 0. -/
def wMesh : MeshDescriptionModel :=
  { vertices := [⟨0, 0, 0⟩, ⟨1, 0, 0⟩, ⟨0, 1, 0⟩]
    vertexInstances :=
      [⟨0, ⟨0, 0, 1⟩, ⟨0, 0⟩⟩, ⟨1, ⟨0, 0, 1⟩, ⟨1, 0⟩⟩, ⟨2, ⟨0, 0, 1⟩, ⟨0, 1⟩⟩]
    polygons := [⟨0, [⟨0, 1, 2⟩]⟩] }

/-- An untextured material. -/
def wMat : MaterialData := { name := ("MatA").toList, texture := none }

/-- One material slot, assigned. -/
def wMats : List (Option MaterialData) := [some wMat]

end MeshMergerExporter

namespace MeshMergerExporter

/-! ### Helper lemmas -/

theorem vtPass_length (l : List VertexInstance) (c : Nat) :
    (vtPass l c).length = l.length := by
  induction l generalizing c with
  | nil => rfl
  | cons a t ih => simp [vtPass, ih]

theorem vtPass_map_fst (l : List VertexInstance) (c : Nat) :
    (vtPass l c).map Prod.fst
      = l.map fun vi => ObjLine.vt vi.uv.u (1 - vi.uv.v) := by
  induction l generalizing c with
  | nil => rfl
  | cons a t ih => simp [vtPass, ih]

theorem vtPass_snd_getD (l : List VertexInstance) (c k : Nat)
    (hk : k < l.length) :
    ((vtPass l c).map Prod.snd).getD k 0 = c + k := by
  induction l generalizing c k with
  | nil => simp at hk
  | cons a t ih =>
      cases k with
      | zero => simp [vtPass]
      | succ k =>
          have hk' : k < t.length := by simpa using hk
          simp only [vtPass, List.map_cons, List.getD_cons_succ]
          rw [ih (c + 1) k hk']
          omega

theorem lookupInstanceIndex_eq (m : MeshDescriptionModel) (k : Nat)
    (hk : k < m.vertexInstances.length) :
    lookupInstanceIndex m k = k + 1 := by
  unfold lookupInstanceIndex instanceIndexList
  rw [vtPass_snd_getD m.vertexInstances 1 k hk]
  omega

theorem vtLines_eq (m : MeshDescriptionModel) :
    vtLines m = m.vertexInstances.map fun vi => ObjLine.vt vi.uv.u (flipV vi.uv.v) := by
  unfold vtLines flipV
  exact vtPass_map_fst m.vertexInstances 1

/-- Every line of a slot chunk is a comment, a `usemtl`, or a face record
built by `faceLineOf` from a triangle of a polygon assigned to that slot. -/
theorem mem_slotChunk_shape (m : MeshDescriptionModel) (i : Nat)
    (s : Option MaterialData) (l : ObjLine) (h : l ∈ slotChunk m i s) :
    (∃ nm, l = ObjLine.comment nm) ∨ (∃ nm, l = ObjLine.usemtl nm) ∨
    (∃ t, l = faceLineOf m t ∧ ∃ p ∈ m.polygons, t ∈ p.triangles ∧ p.groupIdx = i) := by
  cases s with
  | none => simp [slotChunk] at h
  | some mat =>
      simp only [slotChunk, List.mem_cons] at h
      rcases h with rfl | rfl | h
      · exact Or.inl ⟨_, rfl⟩
      · exact Or.inr (Or.inl ⟨_, rfl⟩)
      · refine Or.inr (Or.inr ?_)
        unfold slotFaceLines at h
        rcases List.mem_flatten.mp h with ⟨ll, hll, hl⟩
        rcases List.mem_map.mp hll with ⟨p, hp, rfl⟩
        rcases List.mem_map.mp hl with ⟨t, ht, rfl⟩
        have hp' := List.mem_of_mem_filter hp
        have hg : p.groupIdx == i := (List.mem_filter.mp hp).2
        exact ⟨t, rfl, p, hp', ht, by simpa using hg⟩

theorem slotChunk_countP_vt (m : MeshDescriptionModel) (i : Nat)
    (s : Option MaterialData) : (slotChunk m i s).countP isVtLine = 0 := by
  apply List.countP_eq_zero.mpr
  intro a ha
  rcases mem_slotChunk_shape m i s a ha with ⟨nm, rfl⟩ | ⟨nm, rfl⟩ | ⟨t, rfl, _⟩
  all_goals simp [isVtLine, faceLineOf]

theorem slotChunk_countP_vn (m : MeshDescriptionModel) (i : Nat)
    (s : Option MaterialData) : (slotChunk m i s).countP isVnLine = 0 := by
  apply List.countP_eq_zero.mpr
  intro a ha
  rcases mem_slotChunk_shape m i s a ha with ⟨nm, rfl⟩ | ⟨nm, rfl⟩ | ⟨t, rfl, _⟩
  all_goals simp [isVnLine, faceLineOf]

theorem faceSection_countP_vt (m : MeshDescriptionModel)
    (mats : List (Option MaterialData)) :
    (faceSection m mats).countP isVtLine = 0 := by
  apply List.countP_eq_zero.mpr
  intro a ha
  rcases List.mem_flatten.mp ha with ⟨ll, hll, hal⟩
  rcases List.mem_map.mp hll with ⟨i, _, rfl⟩
  have := slotChunk_countP_vt m i (mats.getD i none)
  have h0 := List.countP_eq_zero.mp this
  exact h0 a hal

theorem faceSection_countP_vn (m : MeshDescriptionModel)
    (mats : List (Option MaterialData)) :
    (faceSection m mats).countP isVnLine = 0 := by
  apply List.countP_eq_zero.mpr
  intro a ha
  rcases List.mem_flatten.mp ha with ⟨ll, hll, hal⟩
  rcases List.mem_map.mp hll with ⟨i, _, rfl⟩
  exact List.countP_eq_zero.mp (slotChunk_countP_vn m i (mats.getD i none)) a hal

theorem vertexLines_countP (m : MeshDescriptionModel) (p : ObjLine → Bool)
    (hp : ∀ x y z, p (ObjLine.v x y z) = false) :
    (vertexLines m).countP p = 0 := by
  apply List.countP_eq_zero.mpr
  intro a ha
  rcases List.mem_map.mp ha with ⟨q, _, rfl⟩
  simp [hp]

theorem vnLines_countP (m : MeshDescriptionModel) (p : ObjLine → Bool)
    (hp : ∀ x y z, p (ObjLine.vn x y z) = false) :
    (vnLines m).countP p = 0 := by
  apply List.countP_eq_zero.mpr
  intro a ha
  rcases List.mem_map.mp ha with ⟨q, _, rfl⟩
  simp [hp]

theorem vtLines_countP (m : MeshDescriptionModel) (p : ObjLine → Bool)
    (hp : ∀ u v, p (ObjLine.vt u v) = false) :
    (vtLines m).countP p = 0 := by
  rw [vtLines_eq]
  apply List.countP_eq_zero.mpr
  intro a ha
  rcases List.mem_map.mp ha with ⟨q, _, rfl⟩
  simp [hp]

theorem vtLines_countP_vt (m : MeshDescriptionModel) :
    (vtLines m).countP isVtLine = m.vertexInstances.length := by
  rw [vtLines_eq]
  rw [List.countP_eq_length.mpr]
  · simp
  · intro a ha
    rcases List.mem_map.mp ha with ⟨q, _, rfl⟩
    simp [isVtLine]

theorem vnLines_countP_vn (m : MeshDescriptionModel) :
    (vnLines m).countP isVnLine = m.vertexInstances.length := by
  rw [List.countP_eq_length.mpr]
  · simp [vnLines]
  · intro a ha
    rcases List.mem_map.mp ha with ⟨q, _, rfl⟩
    simp [isVnLine]

theorem cornerRecord_spec (m : MeshDescriptionModel) (k : Nat)
    (hk : k < m.vertexInstances.length)
    (hv : ∀ vi ∈ m.vertexInstances, vi.vertexID < m.vertices.length) :
    (1 ≤ (cornerRecord m k).vertexIndex ∧
       (cornerRecord m k).vertexIndex ≤ m.vertices.length) ∧
    (cornerRecord m k).uvIndex = (cornerRecord m k).normalIndex ∧
    (1 ≤ (cornerRecord m k).uvIndex ∧
       (cornerRecord m k).uvIndex ≤ m.vertexInstances.length) ∧
    (∃ k2, k2 < m.vertexInstances.length ∧ (cornerRecord m k).uvIndex = k2 + 1 ∧
       (cornerRecord m k).vertexIndex
         = (m.vertexInstances.getD k2 default).vertexID + 1) := by
  have hmem : m.vertexInstances.getD k default ∈ m.vertexInstances := by
    rw [List.getD_eq_getElem _ _ hk]
    exact List.getElem_mem hk
  have hvid := hv _ hmem
  have hlook := lookupInstanceIndex_eq m k hk
  unfold cornerRecord
  simp only [hlook]
  refine ⟨⟨Nat.succ_le_succ (Nat.zero_le _), Nat.succ_le_of_lt hvid⟩, trivial,
    ⟨Nat.succ_le_succ (Nat.zero_le _), Nat.succ_le_of_lt hk⟩, k, hk, by simp, by simp⟩

/-- Any face line of the emitted geometry stream comes from a triangle of a
polygon of the mesh, via `faceLineOf`. -/
theorem mem_encodeGeometry_face (m : MeshDescriptionModel)
    (mats : List (Option MaterialData)) (meshName mtlName : List Char)
    (l : ObjLine) (hl : l ∈ encodeGeometry m mats meshName mtlName)
    (c : FaceCorner) (hc : c ∈ faceCorners l) :
    ∃ t, l = faceLineOf m t ∧ (∃ p ∈ m.polygons, t ∈ p.triangles) ∧
      (c = cornerRecord m t.i0 ∨ c = cornerRecord m t.i1 ∨ c = cornerRecord m t.i2) := by
  unfold encodeGeometry at hl
  simp only [List.mem_append, List.mem_cons, List.not_mem_nil, or_false] at hl
  rcases hl with (((((((rfl | rfl | rfl | rfl) | hv) | rfl) | hvt) | rfl) | hvn) | rfl) | hfs
  · simp [faceCorners] at hc
  · simp [faceCorners] at hc
  · simp [faceCorners] at hc
  · simp [faceCorners] at hc
  · rcases List.mem_map.mp hv with ⟨q, _, rfl⟩
    simp [faceCorners] at hc
  · simp [faceCorners] at hc
  · rw [vtLines_eq] at hvt
    rcases List.mem_map.mp hvt with ⟨q, _, rfl⟩
    simp [faceCorners] at hc
  · simp [faceCorners] at hc
  · rcases List.mem_map.mp hvn with ⟨q, _, rfl⟩
    simp [faceCorners] at hc
  · simp [faceCorners] at hc
  · rcases List.mem_flatten.mp hfs with ⟨ll, hll, hal⟩
    rcases List.mem_map.mp hll with ⟨i, _, rfl⟩
    rcases mem_slotChunk_shape m i (mats.getD i none) l hal with
      ⟨nm, rfl⟩ | ⟨nm, rfl⟩ | ⟨t, rfl, p, hp, ht, _⟩
    · simp [faceCorners] at hc
    · simp [faceCorners] at hc
    · refine ⟨t, rfl, ⟨p, hp, ht⟩, ?_⟩
      simpa [faceLineOf, faceCorners] using hc

theorem sanitize_singleton (c : Char) :
    SanitizeFileName [c] = [if c ∈ reservedChars then '_' else c] := by
  by_cases h : c ∈ reservedChars
  · rw [if_pos h]
    rcases (by simpa [reservedChars] using h) with
      rfl | rfl | rfl | rfl | rfl | rfl | rfl | rfl | rfl | rfl <;> rfl
  · rw [if_neg h]
    simp only [reservedChars, List.mem_cons, List.not_mem_nil, or_false, not_or] at h
    obtain ⟨h1, h2, h3, h4, h5, h6, h7, h8, h9, h10⟩ := h
    simp [SanitizeFileName, replaceChar, h1, h2, h3, h4, h5, h6, h7, h8, h9, h10]

theorem sanitize_cons (c : Char) (t : List Char) :
    SanitizeFileName (c :: t) = SanitizeFileName [c] ++ SanitizeFileName t := by
  simp [SanitizeFileName, replaceChar]

theorem sanitize_eq_map (s : List Char) :
    SanitizeFileName s = s.map fun c => if c ∈ reservedChars then '_' else c := by
  induction s with
  | nil => rfl
  | cons c t ih =>
      rw [sanitize_cons, sanitize_singleton, ih, List.map_cons]
      rfl

/-! ### Claim theorems -/

/-- C1: every emitted face record's corners are written as
`vertexIndex/uvIndex/normalIndex` where `vertexIndex` is 1 plus the corner's
vertex's position in the vertex list (hence in `[1, vertexCount]`), `uvIndex`
and `normalIndex` are numerically identical and equal to the 1-based index
assigned to the corner's vertex-instance during the `vt` pass in
vertex-instance enumeration order (hence in `[1, vertexInstanceCount]`), and
the stream carries one `vt` and one `vn` record per vertex-instance. -/
theorem c1_face_record_indexing (m : MeshDescriptionModel)
    (mats : List (Option MaterialData)) (meshName mtlName : List Char)
    (hwf : MeshWF m) :
    (encodeGeometry m mats meshName mtlName).countP isVtLine
        = m.vertexInstances.length ∧
    (encodeGeometry m mats meshName mtlName).countP isVnLine
        = m.vertexInstances.length ∧
    ∀ l ∈ encodeGeometry m mats meshName mtlName, ∀ c ∈ faceCorners l,
      (1 ≤ c.vertexIndex ∧ c.vertexIndex ≤ m.vertices.length) ∧
      c.uvIndex = c.normalIndex ∧
      (1 ≤ c.uvIndex ∧ c.uvIndex ≤ m.vertexInstances.length) ∧
      ∃ k2, k2 < m.vertexInstances.length ∧ c.uvIndex = k2 + 1 ∧
        c.vertexIndex = (m.vertexInstances.getD k2 default).vertexID + 1 := by
  refine ⟨?_, ?_, ?_⟩
  · have h1 : (vertexLines m).countP isVtLine = 0 :=
      vertexLines_countP m isVtLine fun _ _ _ => rfl
    have h2 : (vnLines m).countP isVtLine = 0 :=
      vnLines_countP m isVtLine fun _ _ _ => rfl
    simp [encodeGeometry, List.countP_append, List.countP_cons, isVtLine,
      h1, h2, vtLines_countP_vt, faceSection_countP_vt]
  · have h1 : (vertexLines m).countP isVnLine = 0 :=
      vertexLines_countP m isVnLine fun _ _ _ => rfl
    have h2 : (vtLines m).countP isVnLine = 0 :=
      vtLines_countP m isVnLine fun _ _ => rfl
    simp [encodeGeometry, List.countP_append, List.countP_cons, isVnLine,
      h1, h2, vnLines_countP_vn, faceSection_countP_vn]
  · intro l hl c hc
    obtain ⟨t, rfl, ⟨p, hp, ht⟩, hcor⟩ :=
      mem_encodeGeometry_face m mats meshName mtlName l hl c hc
    have hb := hwf.1 p hp t ht
    rcases hcor with rfl | rfl | rfl
    · exact cornerRecord_spec m t.i0 hb.1 hwf.2
    · exact cornerRecord_spec m t.i1 hb.2.1 hwf.2
    · exact cornerRecord_spec m t.i2 hb.2.2 hwf.2

theorem c1_face_record_indexing_witness :
    (encodeGeometry wMesh wMats (("MergedMesh").toList) (("merged.mtl").toList)).countP
        isVtLine = wMesh.vertexInstances.length ∧
    (encodeGeometry wMesh wMats (("MergedMesh").toList) (("merged.mtl").toList)).countP
        isVnLine = wMesh.vertexInstances.length ∧
    ∀ l ∈ encodeGeometry wMesh wMats (("MergedMesh").toList) (("merged.mtl").toList),
      ∀ c ∈ faceCorners l,
      (1 ≤ c.vertexIndex ∧ c.vertexIndex ≤ wMesh.vertices.length) ∧
      c.uvIndex = c.normalIndex ∧
      (1 ≤ c.uvIndex ∧ c.uvIndex ≤ wMesh.vertexInstances.length) ∧
      ∃ k2, k2 < wMesh.vertexInstances.length ∧ c.uvIndex = k2 + 1 ∧
        c.vertexIndex = (wMesh.vertexInstances.getD k2 default).vertexID + 1 :=
  c1_face_record_indexing wMesh wMats (("MergedMesh").toList)
    (("merged.mtl").toList) (by decide)

/-- C2: every emitted position and normal record is the source vector under
the fixed component swap `(x, y, z) → (x, z, y)` — the same mapping for both
streams — and that swap is an involution. -/
theorem c2_axis_remap (m : MeshDescriptionModel) :
    vertexLines m = (m.vertices.map fun p =>
        ObjLine.v (remapAxes p).x (remapAxes p).y (remapAxes p).z) ∧
    vnLines m = (m.vertexInstances.map fun vi =>
        ObjLine.vn (remapAxes vi.normal).x (remapAxes vi.normal).y
          (remapAxes vi.normal).z) ∧
    ∀ p : Vec3, remapAxes (remapAxes p) = p :=
  ⟨rfl, rfl, fun _ => rfl⟩

/-- C9: every emitted texture-coordinate record carries `u` unchanged and `v`
flipped to `1 - v`, and the flip is self-inverse. -/
theorem c9_vflip (m : MeshDescriptionModel) :
    vtLines m = (m.vertexInstances.map fun vi =>
        ObjLine.vt vi.uv.u (flipV vi.uv.v)) ∧
    ∀ v : ℚ, flipV (flipV v) = v :=
  ⟨vtLines_eq m, fun v => by unfold flipV; ring⟩

/-- C8: file-name sanitization replaces exactly the ten reserved characters
(space, slash, backslash, colon, asterisk, question mark, double quote, less
than, greater than, pipe) by underscores, character by character, changing
nothing else; the two scenario names sanitize as the spec says; and the
sanitized name is the one used verbatim in the `usemtl` line, the `newmtl`
line and the emitted texture path. -/
theorem c8_sanitization :
    (∀ s : List Char, SanitizeFileName s
        = s.map fun c => if c ∈ reservedChars then '_' else c) ∧
    SanitizeFileName (("Metal/Rough:01").toList) = ("Metal_Rough_01").toList ∧
    SanitizeFileName (("Base Color*Map").toList) = ("Base_Color_Map").toList ∧
    (∀ m i mat, ObjLine.usemtl (SanitizeFileName mat.name) ∈ slotChunk m i (some mat)) ∧
    (∀ mat, MtlLine.newmtl (SanitizeFileName mat.name) ∈ mtlBlock (some mat)) ∧
    ∀ texName ext, texRelPath texName ext
        = ("Textures/").toList ++ SanitizeFileName texName ++ extChars ext := by
  refine ⟨sanitize_eq_map, by decide, by decide, ?_, ?_, fun _ _ => rfl⟩
  · intro m i mat
    simp [slotChunk]
  · intro mat
    simp [mtlBlock]

/-- C3, counterexample: a source buffer declared RGBA8 that is shorter than
`width*height*4` (here 2 bytes for a 1x1 image) is not copied
`min(outputSize, sourceSize)`-bounded — the conversion fails outright and
copies nothing, because RGBA8 falls into the switch's `default` case, which
requires the full `Width*Height*4` bytes. -/
theorem c3_rgba8_counterexample :
    convertSourcePixels ETextureSourceFormat.RGBA8 1 1 [10, 20] = none := by
  decide

/-- C3, amended: an RGBA8-declared source buffer is handled by the
unrecognized-format fallback — when the buffer holds at least
`width*height*4` bytes the first `width*height*4` bytes are copied
byte-for-byte into the canonical (BGRA-layout) buffer, and a shorter buffer
makes the conversion fail with nothing copied. -/
theorem c3_rgba8_amended (w h : Nat) (raw : List Nat) :
    (w * h * 4 ≤ raw.length →
      ∃ cs, convertSourcePixels ETextureSourceFormat.RGBA8 w h raw = some cs ∧
        cs.length = w * h ∧
        ∀ i, i < w * h → colorBytes (cs.getD i zeroColor)
            = [raw.getD (i * 4) 0, raw.getD (i * 4 + 1) 0,
               raw.getD (i * 4 + 2) 0, raw.getD (i * 4 + 3) 0]) ∧
    (raw.length < w * h * 4 →
      convertSourcePixels ETextureSourceFormat.RGBA8 w h raw = none) := by
  constructor
  · intro hlen
    refine ⟨(List.range (w * h)).map fun pixelIndex => bgra8PixelAt raw pixelIndex,
      ?_, by simp, ?_⟩
    · unfold convertSourcePixels
      rw [if_pos hlen]
    · intro i hi
      have hi' : i < ((List.range (w * h)).map fun pixelIndex =>
          bgra8PixelAt raw pixelIndex).length := by simpa using hi
      rw [List.getD_eq_getElem _ _ hi', List.getElem_map, List.getElem_range]
      rfl
  · intro hshort
    unfold convertSourcePixels
    rw [if_neg (by omega)]

/-- C4: for a recognized source format (BGRA8 or G8) and a source buffer
shorter than `width*height*expectedChannels`, the conversion still produces a
full `width*height` canonical buffer; every per-pixel read is guarded — a
pixel whose source bytes are in range is read from exactly those bytes, and a
pixel whose source bytes are missing is left as zero. -/
theorem c4_truncated_source_safety (format : ETextureSourceFormat)
    (w h : Nat) (raw : List Nat)
    (hrec : format = ETextureSourceFormat.BGRA8 ∨ format = ETextureSourceFormat.G8)
    (hshort : raw.length < w * h * expectedChannels format) :
    ∃ cs, convertSourcePixels format w h raw = some cs ∧ cs.length = w * h ∧
      (∀ i, i < w * h →
        ¬(i * expectedChannels format + (expectedChannels format - 1) < raw.length) →
        cs.getD i zeroColor = zeroColor) ∧
      (∀ i, i < w * h →
        i * expectedChannels format + (expectedChannels format - 1) < raw.length →
        cs.getD i zeroColor = recognizedPixelAt format raw i) := by
  rcases hrec with rfl | rfl
  · refine ⟨_, rfl, by simp, ?_, ?_⟩
    · intro i hi hout
      have hi' : i < ((List.range (w * h)).map fun pixelIndex =>
          if pixelIndex * 4 + 3 < raw.length then bgra8PixelAt raw pixelIndex
          else zeroColor).length := by simpa using hi
      rw [List.getD_eq_getElem _ _ hi', List.getElem_map, List.getElem_range]
      rw [if_neg (by simpa [expectedChannels] using hout)]
    · intro i hi hin
      have hi' : i < ((List.range (w * h)).map fun pixelIndex =>
          if pixelIndex * 4 + 3 < raw.length then bgra8PixelAt raw pixelIndex
          else zeroColor).length := by simpa using hi
      rw [List.getD_eq_getElem _ _ hi', List.getElem_map, List.getElem_range]
      rw [if_pos (by simpa [expectedChannels] using hin)]
      rfl
  · refine ⟨_, rfl, by simp, ?_, ?_⟩
    · intro i hi hout
      have hi' : i < ((List.range (w * h)).map fun pixelIndex =>
          if pixelIndex < raw.length then grayPixelAt raw pixelIndex
          else zeroColor).length := by simpa using hi
      rw [List.getD_eq_getElem _ _ hi', List.getElem_map, List.getElem_range]
      rw [if_neg (by simp [expectedChannels] at hout; omega)]
    · intro i hi hin
      have hi' : i < ((List.range (w * h)).map fun pixelIndex =>
          if pixelIndex < raw.length then grayPixelAt raw pixelIndex
          else zeroColor).length := by simpa using hi
      rw [List.getD_eq_getElem _ _ hi', List.getElem_map, List.getElem_range]
      rw [if_pos (by simp [expectedChannels] at hin; omega)]
      rfl

theorem c4_truncated_source_safety_witness :
    ∃ cs, convertSourcePixels ETextureSourceFormat.BGRA8 2 1 [1, 2, 3, 4]
          = some cs ∧ cs.length = 2 ∧
      (∀ i, i < 2 → ¬(i * 4 + 3 < 4) → cs.getD i zeroColor = zeroColor) ∧
      (∀ i, i < 2 → i * 4 + 3 < 4 →
        cs.getD i zeroColor
          = recognizedPixelAt ETextureSourceFormat.BGRA8 [1, 2, 3, 4] i) :=
  c4_truncated_source_safety ETextureSourceFormat.BGRA8 2 1 [1, 2, 3, 4]
    (Or.inl rfl) (by decide)

/-- C5: the encoder chain tries TGA first and BMP second; the result is the
first candidate whose whole ladder (wrapper, `SetRaw`, non-empty compressed
bytes, file save) succeeds, independently of the later candidate's outcome;
and one texture contributes at most one `map_Kd` reference — never both a
`.tga` and a `.bmp` one. -/
theorem c5_encoder_chain (o1 o2 : TextureEncodeOutcome) (t : TextureExportEnv) :
    encodeChain o1 o2
        = (if formatSucceeds o1 = true then some ImageExt.tga
           else if formatSucceeds o2 = true then some ImageExt.bmp else none) ∧
    (textureMapLines t).length ≤ 1 ∧
    (((textureMapLines t).contains
        (MtlLine.mapKd (texRelPath t.texName ImageExt.tga)) &&
      (textureMapLines t).contains
        (MtlLine.mapKd (texRelPath t.texName ImageExt.bmp))) = false) := by
  have hne : texRelPath t.texName ImageExt.tga ≠ texRelPath t.texName ImageExt.bmp := by
    intro he
    unfold texRelPath at he
    have h1 := List.append_cancel_left (List.append_assoc .. ▸ List.append_assoc .. ▸ he)
    have h2 := List.append_cancel_left h1
    exact absurd h2 (by decide)
  have hlen : ∀ oc : Option ImageExt, (mapLinesOf t.texName oc).length ≤ 1 := by
    intro oc; cases oc <;> simp [mapLinesOf]
  have hboth : ∀ oc : Option ImageExt,
      ((mapLinesOf t.texName oc).contains
          (MtlLine.mapKd (texRelPath t.texName ImageExt.tga)) &&
        (mapLinesOf t.texName oc).contains
          (MtlLine.mapKd (texRelPath t.texName ImageExt.bmp))) = false := by
    intro oc
    cases oc with
    | none => simp [mapLinesOf]
    | some e =>
        cases e with
        | tga => simp [mapLinesOf, List.contains, Ne.symm hne]
        | bmp => simp [mapLinesOf, List.contains, hne]
  refine ⟨?_, ?_, ?_⟩
  · cases h1 : formatSucceeds o1 <;> cases h2 : formatSucceeds o2 <;>
      simp [encodeChain, tryFormat, h1, h2]
  · unfold textureMapLines
    split_ifs <;> first | apply hlen | simp
  · unfold textureMapLines
    split_ifs <;> first | apply hboth | simp

/-- C6: the orchestrator's return value is true exactly when the geometry
file write succeeds (all precondition checks pass and the OBJ save call
succeeds); the material export step runs exactly after a successful geometry
write; and no outcome of the material/texture step — different slot data or a
failed MTL save — changes the return value or un-writes the geometry file. -/
theorem c6_success_policy (env : ExportEnv)
    (slots1 slots2 : List (Option MaterialData)) (base : List Char)
    (ok1 ok2 : Bool) :
    (ExportToOBJ env slots1 base ok1).success = geometryWriteSucceeded env ∧
    (ExportToOBJ env slots1 base ok1).objFileWritten = geometryWriteSucceeded env ∧
    (ExportToOBJ env slots1 base ok1).materials.isSome = geometryWriteSucceeded env ∧
    (ExportToOBJ env slots1 base ok1).success
        = (ExportToOBJ env slots2 base ok2).success ∧
    (ExportToOBJ env slots1 base ok1).objFileWritten
        = (ExportToOBJ env slots2 base ok2).objFileWritten := by
  obtain ⟨mp, rd, md, so⟩ := env
  cases mp <;> cases rd <;> cases md <;> cases so <;>
    simp [ExportToOBJ, geometryWriteSucceeded]

/-- C7: a material slot with a null handle contributes zero `usemtl` lines,
zero face lines and no MTL block (it is skipped), and nulling out slot `i`
leaves every other slot's geometry chunk and MTL block unchanged. -/
theorem c7_material_skip (m : MeshDescriptionModel)
    (mats : List (Option MaterialData)) (i : Nat) :
    (slotChunk m i none).countP isUsemtlLine = 0 ∧
    (slotChunk m i none).countP isFaceLine = 0 ∧
    mtlBlock none = [] ∧
    (∀ j, j ≠ i → slotChunk m j ((mats.set i none).getD j none)
        = slotChunk m j (mats.getD j none)) ∧
    (∀ j, j ≠ i → mtlBlock ((mats.set i none).getD j none)
        = mtlBlock (mats.getD j none)) := by
  have hset : ∀ j, j ≠ i → (mats.set i none).getD j none = mats.getD j none := by
    intro j hj
    simp [List.getD, List.getElem?_set_ne (Ne.symm hj)]
  exact ⟨rfl, rfl, rfl, fun j hj => by rw [hset j hj], fun j hj => by rw [hset j hj]⟩

/-- C10: whenever the material export step runs (which it does exactly after
a successful geometry write), it attempts exactly one material-file write,
named `<geometry base name>.mtl`, unconditionally — with empty content when
the material list is empty or every slot is null. -/
theorem c10_mtl_file_unconditional (slots : List (Option MaterialData))
    (base : List Char) (ok : Bool) :
    (ExportMaterials slots base ok).mtlFileName = base ++ ((".mtl").toList) ∧
    (ExportMaterials slots base ok).writeAttempted = true ∧
    (slots = [] → (ExportMaterials slots base ok).content = []) ∧
    ((∀ s ∈ slots, s = none) → (ExportMaterials slots base ok).content = []) ∧
    ∀ env, geometryWriteSucceeded env = true →
      (ExportToOBJ env slots base ok).materials
        = some (ExportMaterials slots base ok) := by
  refine ⟨rfl, rfl, ?_, ?_, ?_⟩
  · rintro rfl; rfl
  · intro hall
    show (slots.map mtlBlock).flatten = []
    rw [List.flatten_eq_nil_iff]
    intro l hl
    rcases List.mem_map.mp hl with ⟨s, hs, rfl⟩
    rw [hall s hs]
    rfl
  · intro env henv
    obtain ⟨mp, rd, md, so⟩ := env
    simp only [geometryWriteSucceeded, Bool.and_eq_true] at henv
    obtain ⟨⟨⟨h1, h2⟩, h3⟩, h4⟩ := henv
    subst h1; subst h2; subst h3; subst h4
    rfl

end MeshMergerExporter
